import Mathlib

/-!
Shallow embedding of the `AddCarForm` React component (admin car-intake form)
of the Vechi_Ql repository, together with theorems checking its specification.

The embedding models:
* the JavaScript numeric-string parsing used by the zod schema (`parseInt`);
* the zod `carFormSchema` field validation;
* the component state (uploaded image list, image error, preview, active tab,
  form draft) and each event handler (`onSubmit`, `onMultiImagesDrop`,
  `removeImage`, the AI-result and AI-error effects, the AI preview removal);
* the submit flow around the external `addCar` collaborator.

Handlers are modelled as pure state transitions that also return their emitted
effects (toast notifications, the external call payload, the navigation
target), since the component runs single-threaded over an event loop.
-/

namespace VehiQl

/-! ## JavaScript numeric parsing

`parseInt(val)` (radix 10, as invoked in the schema): skip leading whitespace,
read an optional sign, then the longest leading run of decimal digits; NaN
(here `none`) when that run is empty.  The legacy `0x` hexadecimal prefix form
is not modelled; no input considered here uses it. -/

/-- Value of a list of decimal digit characters, most significant first,
as JavaScript accumulates them left to right. -/
def digitsToNat (cs : List Char) : Nat :=
  cs.foldl (fun acc c => 10 * acc + (c.toNat - 48)) 0

/-- The longest leading run of decimal digits, `none` when it is empty
(JavaScript NaN). -/
def parseLeadingDigits (cs : List Char) : Option Nat :=
  let ds := cs.takeWhile Char.isDigit
  if ds.isEmpty then none else some (digitsToNat ds)

/-- The sign-and-digits step of `parseInt`, after whitespace removal. -/
def parseSigned : List Char → Option Int
  | [] => none
  | c :: rest =>
    if c = '-' then (parseLeadingDigits rest).map (fun n : Nat => -(n : Int))
    else if c = '+' then (parseLeadingDigits rest).map (fun n : Nat => (n : Int))
    else (parseLeadingDigits (c :: rest)).map (fun n : Nat => (n : Int))

/-- JavaScript `parseInt(s)` with the default radix on non-hex input:
whitespace skip, optional sign, longest leading digit run. -/
def parseIntJS (s : String) : Option Int :=
  parseSigned (s.data.dropWhile Char.isWhitespace)

/-- JavaScript `parseFloat(s)` restricted to plain decimal inputs
(optional sign, digits, optional fractional part; exponents not modelled).
No claim inspects the parsed value, only that submission forwards it. -/
def parseFloatJS (s : String) : Option ℚ :=
  let cs := s.data.dropWhile Char.isWhitespace
  let core : List Char → Option ℚ := fun cs' =>
    let ds := cs'.takeWhile Char.isDigit
    match cs'.dropWhile Char.isDigit with
    | '.' :: rest =>
      let fs := rest.takeWhile Char.isDigit
      if ds.isEmpty && fs.isEmpty then none
      else some ((digitsToNat ds : ℚ) + (digitsToNat fs : ℚ) / (10 : ℚ) ^ fs.length)
    | _ => if ds.isEmpty then none else some (digitsToNat ds : ℚ)
  match cs with
  | [] => none
  | c :: rest =>
    if c = '-' then (core rest).map (fun q => -q)
    else if c = '+' then core rest
    else core (c :: rest)

/-- The decimal digit characters of `n`, most significant first
(empty for `n = 0`). -/
def digitChars (n : Nat) : List Char :=
  ((Nat.digits 10 n).map (fun d => Char.ofNat (48 + d))).reverse

/-- The decimal string of a natural number (`"0"` for zero), as
JavaScript `Number.prototype.toString` renders integer values. -/
def natDecimalString (n : Nat) : String :=
  if n = 0 then "0" else String.mk (digitChars n)

/-- The decimal string of an integer: the claim's "string form of y", and
JavaScript `toString` on an integral number. -/
def intDecimalString (y : Int) : String :=
  if y < 0 then String.mk ('-' :: digitChars y.natAbs)
  else natDecimalString y.toNat

/-! ## The zod schema (`carFormSchema`) -/

/-- The in-progress form draft: every field is the raw string held by the
form library, plus the enumerated status and the boolean featured flag,
exactly the fields registered in the component. -/
structure CarDraft where
  make : String
  model : String
  year : String
  price : String
  mileage : String
  color : String
  fuelType : String
  transmission : String
  bodyType : String
  seats : String
  description : String
  status : String
  featured : Bool
deriving Repr, DecidableEq

/-- The year refinement of `carFormSchema`:
`!isNaN(parseInt(val)) && year >= 1900 && year <= currentYear + 1`,
with the current calendar year passed explicitly. -/
def yearCheck (cy : Int) (val : String) : Bool :=
  match parseIntJS val with
  | none => false
  | some year => 1900 ≤ year && year ≤ cy + 1

/-- One `z.string().min(1, msg)` required-field check: an error entry when the
string is shorter than one character, nothing otherwise. -/
def requiredError (field : String) (value : String) (msg : String) :
    List (String × String) :=
  if 1 ≤ value.length then [] else [(field, msg)]

/-- The status values accepted by `z.enum(["AVAILABLE", "UNAVAILABLE", "SOLD"])`. -/
def carStatuses : List String := ["AVAILABLE", "UNAVAILABLE", "SOLD"]

/-- The field-level errors `carFormSchema` produces for a draft, in field
declaration order: `make`, `model`, `year`, `price`, `mileage`, `color`,
`fuelType`, `transmission`, `bodyType`, `seats` (optional, never checked),
`description` (min length 10), `status` (enum), `featured` (boolean,
defaulted, never fails). -/
def fieldErrors (cy : Int) (d : CarDraft) : List (String × String) :=
  requiredError "make" d.make "Make is required" ++
  requiredError "model" d.model "Model is required" ++
  (if yearCheck cy d.year then [] else [("year", "Valid year required")]) ++
  requiredError "price" d.price "Price is required" ++
  requiredError "mileage" d.mileage "Mileage is required" ++
  requiredError "color" d.color "Color is required" ++
  requiredError "fuelType" d.fuelType "Fuel type is required" ++
  requiredError "transmission" d.transmission "Transmission is required" ++
  requiredError "bodyType" d.bodyType "Body type is required" ++
  (if d.description.length ≥ 10 then []
   else [("description", "Description must be at least 10 characters")]) ++
  (if d.status ∈ carStatuses then [] else [("status", "Invalid enum value")])

/-- The year refinement as zod reports it: `none` when the value passes,
otherwise the message "Valid year required". -/
def yearError (cy : Int) (val : String) : Option String :=
  if yearCheck cy val then none else some "Valid year required"

/-! ## Component state and handlers -/

/-- A dropped file as the handlers see it: its name and byte size, and the
data-URL string that `FileReader.readAsDataURL` produces for it. -/
structure JsFile where
  name : String
  size : Nat
  dataUrl : String
deriving Repr, DecidableEq

/-- The component state owned by `AddCarForm`: the active tab, the shared
uploaded-image list (data-URL strings), the image error message, the AI
preview data-URL, the file held for AI processing, and the form draft. -/
structure ComponentState where
  activeTab : String
  uploadedImages : List String
  imageError : String
  imagePreview : Option String
  uploadedAiImage : Option JsFile
  draft : CarDraft
deriving Repr, DecidableEq

/-- The typed record `onSubmit` builds from a validated draft:
`year: parseInt(data.year)`, `price: parseFloat(data.price)`,
`mileage: parseInt(data.mileage)`,
`seats: data.seats ? parseInt(data.seats) : null`; the remaining fields are
forwarded verbatim.  `none` stands for both null and NaN. -/
structure CoercedCarData where
  make : String
  model : String
  year : Option Int
  price : Option ℚ
  mileage : Option Int
  color : String
  fuelType : String
  transmission : String
  bodyType : String
  seats : Option Int
  description : String
  status : String
  featured : Bool
deriving Repr, DecidableEq

/-- The spread-and-coerce step of `onSubmit`. -/
def coerceCarData (d : CarDraft) : CoercedCarData :=
  { make := d.make
    model := d.model
    year := parseIntJS d.year
    price := parseFloatJS d.price
    mileage := parseIntJS d.mileage
    color := d.color
    fuelType := d.fuelType
    transmission := d.transmission
    bodyType := d.bodyType
    seats := if d.seats = "" then none else parseIntJS d.seats
    description := d.description
    status := d.status
    featured := d.featured }

/-- The payload `onSubmit` hands to the external `addCar` collaborator. -/
structure AddCarRequest where
  carData : CoercedCarData
  images : List String
deriving Repr, DecidableEq

/-- `onSubmit(data)`: when the uploaded-image list is empty, set the image
error and return without calling `addCar`; otherwise invoke `addCar` with the
coerced data and the image list.  The returned option is the external call
payload (`none` means `addCar` was not called). -/
def onSubmit (s : ComponentState) (data : CarDraft) :
    ComponentState × Option AddCarRequest :=
  if s.uploadedImages.length = 0 then
    ({ s with imageError := "Please upload at least one image" }, none)
  else
    (s, some { carData := coerceCarData data, images := s.uploadedImages })

/-- A file is rejected by the manual drop handler when its size strictly
exceeds `5 * 1024 * 1024` bytes. -/
def oversize (f : JsFile) : Bool := 5 * 1024 * 1024 < f.size

/-- The effects of `onMultiImagesDrop`: the new state, the per-file oversize
warning toasts, and the success toast if one was emitted. -/
structure DropOutcome where
  state : ComponentState
  warningToasts : List String
  successToast : Option String
deriving Repr, DecidableEq

/-- `onMultiImagesDrop(acceptedFiles)`: filter out oversize files, emitting a
discrete warning toast for each; if no file remains, stop; otherwise read each
remaining file and, once all are read, append their data URLs to the uploaded
list, clear the image error, and emit one success toast.  Reads are modelled
as completing in file order. -/
def onMultiImagesDrop (s : ComponentState) (acceptedFiles : List JsFile) :
    DropOutcome :=
  let validFiles := acceptedFiles.filter (fun f => !oversize f)
  let warnings := (acceptedFiles.filter oversize).map
    (fun f => f.name ++ " exceeds 5MB limit and will be skipped")
  if validFiles.isEmpty then
    { state := s, warningToasts := warnings, successToast := none }
  else
    { state := { s with
        uploadedImages := s.uploadedImages ++ validFiles.map (fun f => f.dataUrl)
        imageError := "" }
      warningToasts := warnings
      successToast :=
        some ("Uploaded " ++ toString validFiles.length ++ " images successfully") }

/-- `prev.filter((_, index) => index !== indexToRemove)`: a filter whose
predicate sees each element's index, starting the count at `k`. -/
def filterIdxNe {α : Type} : List α → Nat → Nat → List α
  | [], _, _ => []
  | x :: xs, k, i =>
    (if k ≠ i then [x] else []) ++ filterIdxNe xs (k + 1) i

/-- `removeImage(indexToRemove)`: drop the element whose index equals the
argument; then, because the handler reads the pre-removal list from its
closure, re-arm the image error exactly when `uploadedImages.length - 1 === 0`
held before the removal (JavaScript arithmetic, so length 0 gives `-1 ≠ 0`). -/
def removeImage (s : ComponentState) (indexToRemove : Nat) : ComponentState :=
  { s with
    uploadedImages := filterIdxNe s.uploadedImages 0 indexToRemove
    imageError :=
      if (s.uploadedImages.length : Int) - 1 = 0 then
        "Please upload at least one image"
      else s.imageError }

/-- The structured response of the AI-extraction collaborator on success. -/
structure CarDetails where
  make : String
  model : String
  year : Int
  color : String
  bodyType : String
  fuelType : String
  price : String
  mileage : String
  transmission : String
  description : String
  confidence : ℚ
deriving Repr, DecidableEq

/-- The success branch of the `processImageResult` effect: write the ten
extracted fields into the draft (`year` through `toString`), then switch the
active tab to manual.  `confidence` feeds only the toast text. -/
def processImageSuccess (s : ComponentState) (carDetails : CarDetails) :
    ComponentState :=
  { s with
    draft := { s.draft with
      make := carDetails.make
      model := carDetails.model
      year := intDecimalString carDetails.year
      color := carDetails.color
      bodyType := carDetails.bodyType
      fuelType := carDetails.fuelType
      price := carDetails.price
      mileage := carDetails.mileage
      transmission := carDetails.transmission
      description := carDetails.description }
    activeTab := "manual" }

/-- The `processImageError` effect: state untouched, one error toast with
`processImageError.message || "Failed to process car image"` (the empty
message is falsy in JavaScript). -/
def processImageErrorEffect (s : ComponentState) (message : String) :
    ComponentState × String :=
  (s, if message = "" then "Failed to process car image" else message)

/-- The onClick of the AI preview's remove button: clear the preview and the
held AI file, and drop from the uploaded list every entry equal to the preview
data URL (`prev.filter(img => img !== imagePreview)`). -/
def removeAiPreview (s : ComponentState) (preview : String) : ComponentState :=
  { s with
    imagePreview := none
    uploadedAiImage := none
    uploadedImages := s.uploadedImages.filter (fun img => img ≠ preview) }

/-- Outcome of one external `addCar` call as the component observes it:
either a response with `success: true`, or a failure (a `success: false`
response or a thrown error). -/
inductive AddCarOutcome
  | ok
  | err (message : String)
deriving Repr, DecidableEq

/-- Modelled from the spec: the `useFetch` wrapper around `addCar` lives
outside the repository snapshot (only `@/hooks/use-fetch` is imported), so its
failure path is taken from the spec: an external-call failure is recoverable
and "reported once as a terminal notification", with draft state preserved.
The success path is the component's own effect: a success toast and
`router.push("/admin/cars")`.  Returned alongside the state: the error toasts,
the success toasts, and the navigation target. -/
def submitFlow (s : ComponentState) (data : CarDraft) (outcome : AddCarOutcome) :
    ComponentState × List String × List String × Option String :=
  match onSubmit s data with
  | (s', none) => (s', [], [], none)
  | (s', some _) =>
    match outcome with
    | AddCarOutcome.ok => (s', [], ["Car added successfully"], some "/admin/cars")
    | AddCarOutcome.err message => (s', [message], [], none)

/-! ## Lemmas: decimal round trip through `parseIntJS` -/

theorem digitChar_isDigit {d : Nat} (h : d < 10) :
    (Char.ofNat (48 + d)).isDigit = true := by
  interval_cases d <;> decide

theorem digitChar_not_ws {d : Nat} (h : d < 10) :
    (Char.ofNat (48 + d)).isWhitespace = false := by
  interval_cases d <;> decide

theorem digitChar_ne_minus {d : Nat} (h : d < 10) : Char.ofNat (48 + d) ≠ '-' := by
  interval_cases d <;> decide

theorem digitChar_ne_plus {d : Nat} (h : d < 10) : Char.ofNat (48 + d) ≠ '+' := by
  interval_cases d <;> decide

theorem digitChar_toNat {d : Nat} (h : d < 10) :
    (Char.ofNat (48 + d)).toNat = 48 + d := by
  interval_cases d <;> decide

theorem foldl_digitChars (L : List Nat) (hL : ∀ d ∈ L, d < 10) (acc : Nat) :
    List.foldl (fun a c => 10 * a + (c.toNat - 48)) acc
      ((L.map (fun d => Char.ofNat (48 + d))).reverse)
      = acc * 10 ^ L.length + Nat.ofDigits 10 L := by
  induction L generalizing acc with
  | nil => simp
  | cons d rest ih =>
    have hd : d < 10 := hL d (by simp)
    have hrest : ∀ x ∈ rest, x < 10 := fun x hx => hL x (by simp [hx])
    rw [List.map_cons, List.reverse_cons, List.foldl_append, ih hrest acc]
    simp only [List.foldl_cons, List.foldl_nil, digitChar_toNat hd,
      Nat.ofDigits_cons, List.length_cons]
    have : 48 + d - 48 = d := by omega
    rw [this]
    ring

theorem digitsToNat_digitChars (n : Nat) : digitsToNat (digitChars n) = n := by
  unfold digitsToNat digitChars
  rw [foldl_digitChars _ (fun d hd => Nat.digits_lt_base (by norm_num) hd)]
  simp [Nat.ofDigits_digits]

theorem mem_digitChars {n : Nat} {c : Char} (hc : c ∈ digitChars n) :
    ∃ d, d < 10 ∧ c = Char.ofNat (48 + d) := by
  unfold digitChars at hc
  rw [List.mem_reverse, List.mem_map] at hc
  obtain ⟨d, hd, rfl⟩ := hc
  exact ⟨d, Nat.digits_lt_base (by norm_num) hd, rfl⟩

theorem takeWhile_of_all {α : Type} (p : α → Bool) (l : List α)
    (h : ∀ x ∈ l, p x = true) : l.takeWhile p = l := by
  induction l with
  | nil => rfl
  | cons x xs ih =>
    rw [List.takeWhile_cons, h x (by simp)]
    simp [ih fun x hx => h x (by simp [hx])]

theorem digitChars_ne_nil {n : Nat} (hn : n ≠ 0) : digitChars n ≠ [] := by
  unfold digitChars
  simp [Nat.digits_ne_nil_iff_ne_zero.mpr hn]

theorem parseLeadingDigits_digitChars (n : Nat) (hn : n ≠ 0) :
    parseLeadingDigits (digitChars n) = some n := by
  unfold parseLeadingDigits
  rw [takeWhile_of_all _ _ (fun c hc => by
    obtain ⟨d, hd, rfl⟩ := mem_digitChars hc
    exact digitChar_isDigit hd)]
  simp [List.isEmpty_iff, digitChars_ne_nil hn, digitsToNat_digitChars]

theorem parseIntJS_mk_digitChars (n : Nat) (hn : n ≠ 0) :
    parseIntJS (String.mk (digitChars n)) = some (n : Int) := by
  obtain ⟨c, rest, hcons⟩ := List.exists_cons_of_ne_nil (digitChars_ne_nil hn)
  have hc : c ∈ digitChars n := by rw [hcons]; simp
  obtain ⟨d, hd, rfl⟩ := mem_digitChars hc
  have hdrop : (digitChars n).dropWhile Char.isWhitespace
      = Char.ofNat (48 + d) :: rest := by
    rw [hcons, List.dropWhile_cons, digitChar_not_ws hd]
    simp
  have hdata : (String.mk (digitChars n)).data = digitChars n := rfl
  unfold parseIntJS
  rw [hdata, hdrop]
  simp only [parseSigned, if_neg (digitChar_ne_minus hd),
    if_neg (digitChar_ne_plus hd), ← hcons, parseLeadingDigits_digitChars n hn,
    Option.map_some']

theorem parseIntJS_natDecimalString (n : Nat) :
    parseIntJS (natDecimalString n) = some (n : Int) := by
  unfold natDecimalString
  by_cases hn : n = 0
  · subst hn; decide
  · rw [if_neg hn]
    exact parseIntJS_mk_digitChars n hn

theorem parseIntJS_intDecimalString (y : Int) :
    parseIntJS (intDecimalString y) = some y := by
  unfold intDecimalString
  by_cases hy : y < 0
  · rw [if_pos hy]
    have hn : y.natAbs ≠ 0 := by omega
    have hdata : (String.mk ('-' :: digitChars y.natAbs)).data
        = '-' :: digitChars y.natAbs := rfl
    have hws : ('-').isWhitespace = false := by decide
    unfold parseIntJS
    rw [hdata, List.dropWhile_cons, hws]
    simp only [Bool.false_eq_true, if_false, parseSigned, if_pos rfl, if_true,
      parseLeadingDigits_digitChars _ hn, Option.map_some']
    congr 1
    omega
  · rw [if_neg hy, parseIntJS_natDecimalString]
    congr 1
    omega

/-! ## Lemmas: index-based filtering (`removeImage`) -/

theorem filterIdxNe_shift {α : Type} (l : List α) (k i : Nat) :
    filterIdxNe l (k + 1) (i + 1) = filterIdxNe l k i := by
  induction l generalizing k i with
  | nil => rfl
  | cons x xs ih =>
    simp only [filterIdxNe]
    rw [ih]
    congr 1
    by_cases h : k = i
    · simp [h]
    · rw [if_pos (by omega), if_pos h]

theorem filterIdxNe_high {α : Type} (l : List α) (k i : Nat) (h : i < k) :
    filterIdxNe l k i = l := by
  induction l generalizing k with
  | nil => rfl
  | cons x xs ih =>
    simp only [filterIdxNe]
    rw [if_pos (by omega), ih (k + 1) (by omega)]
    rfl

theorem filterIdxNe_eq_take_drop {α : Type} (l : List α) (i : Nat)
    (h : i < l.length) :
    filterIdxNe l 0 i = l.take i ++ l.drop (i + 1) := by
  induction i generalizing l with
  | zero =>
    cases l with
    | nil => simp at h
    | cons x xs =>
      simp only [filterIdxNe]
      rw [if_neg (by omega), filterIdxNe_high xs 1 0 (by omega)]
      simp
  | succ i ih =>
    cases l with
    | nil => simp at h
    | cons x xs =>
      simp only [filterIdxNe]
      rw [if_pos (by omega), filterIdxNe_shift,
        ih xs (by simpa using h)]
      simp

/-! ## Lemmas: strings and required fields -/

theorem one_le_length_of_ne_empty {s : String} (h : s ≠ "") : 1 ≤ s.length := by
  cases s with
  | mk cs =>
    cases cs with
    | nil => exact absurd rfl h
    | cons c cs => simp [String.length]

theorem requiredError_nonempty (field msg : String) {v : String} (h : v ≠ "") :
    requiredError field v msg = [] := by
  unfold requiredError
  rw [if_pos (one_le_length_of_ne_empty h)]

theorem requiredError_empty (field msg : String) :
    requiredError field "" msg = [(field, msg)] := rfl

/-- The required string fields of the schema: those checked by
`z.string().min(1, ...)`. -/
inductive ReqField
  | make
  | model
  | price
  | mileage
  | color
  | fuelType
  | transmission
  | bodyType
deriving DecidableEq, Fintype, Repr

/-- The draft value of a required field. -/
def getField : ReqField → CarDraft → String
  | ReqField.make, d => d.make
  | ReqField.model, d => d.model
  | ReqField.price, d => d.price
  | ReqField.mileage, d => d.mileage
  | ReqField.color, d => d.color
  | ReqField.fuelType, d => d.fuelType
  | ReqField.transmission, d => d.transmission
  | ReqField.bodyType, d => d.bodyType

/-- The error-path name of a required field. -/
def reqName : ReqField → String
  | ReqField.make => "make"
  | ReqField.model => "model"
  | ReqField.price => "price"
  | ReqField.mileage => "mileage"
  | ReqField.color => "color"
  | ReqField.fuelType => "fuelType"
  | ReqField.transmission => "transmission"
  | ReqField.bodyType => "bodyType"

/-- The schema's message for a missing required field. -/
def reqMsg : ReqField → String
  | ReqField.make => "Make is required"
  | ReqField.model => "Model is required"
  | ReqField.price => "Price is required"
  | ReqField.mileage => "Mileage is required"
  | ReqField.color => "Color is required"
  | ReqField.fuelType => "Fuel type is required"
  | ReqField.transmission => "Transmission is required"
  | ReqField.bodyType => "Body type is required"

theorem seats_never_in_fieldErrors (cy : Int) (d : CarDraft) :
    ∀ e ∈ fieldErrors cy d, e.1 ≠ "seats" := by
  intro e he
  unfold fieldErrors requiredError at he
  simp only [List.mem_append] at he
  rcases he with ((((((((((h | h) | h) | h) | h) | h) | h) | h) | h) | h) | h) <;>
    (split at h <;> simp_all)

/-! ## Sample data for witnesses -/

/-- A fully filled draft whose every schema check passes (at current year
2025 and far beyond). -/
def sampleDraft : CarDraft :=
  { make := "Toyota"
    model := "Camry"
    year := "2005"
    price := "25000"
    mileage := "15000"
    color := "Red"
    fuelType := "Petrol"
    transmission := "Automatic"
    bodyType := "Sedan"
    seats := ""
    description := "A reliable family sedan."
    status := "AVAILABLE"
    featured := false }

/-- A component state with no uploaded image. -/
def emptyImageState : ComponentState :=
  { activeTab := "manual"
    uploadedImages := []
    imageError := ""
    imagePreview := none
    uploadedAiImage := none
    draft := sampleDraft }

/-- A component state holding exactly one uploaded image. -/
def oneImageState : ComponentState :=
  { emptyImageState with uploadedImages := ["data:image/png;base64,AAA"] }

/-- A component state where the AI preview payload also occurs among the
manually uploaded images. -/
def dupImageState : ComponentState :=
  { emptyImageState with
    uploadedImages := ["data:p", "data:x", "data:p"]
    imagePreview := some "data:p" }

/-! ## The claims -/

/-- C1: whenever `onSubmit` runs with an empty uploaded-image list, the image
error is set to the "at least one image" message, the external `addCar`
collaborator is not called, and the form draft is unchanged. -/
theorem claim_C1 (s : ComponentState) (data : CarDraft)
    (h : s.uploadedImages = []) :
    (onSubmit s data).1.imageError = "Please upload at least one image"
    ∧ (onSubmit s data).2 = none
    ∧ (onSubmit s data).1.draft = s.draft := by
  unfold onSubmit
  rw [h]
  exact ⟨rfl, rfl, rfl⟩

/-- Witness for C1 at a concrete empty-image state. -/
theorem claim_C1_witness :
    (onSubmit emptyImageState sampleDraft).1.imageError
        = "Please upload at least one image"
    ∧ (onSubmit emptyImageState sampleDraft).2 = none
    ∧ (onSubmit emptyImageState sampleDraft).1.draft = emptyImageState.draft :=
  claim_C1 emptyImageState sampleDraft rfl

/-- C2: for every integer `y` and every current year, the year refinement
accepts the decimal string of `y` exactly when `1900 ≤ y ≤ currentYear + 1`,
and otherwise rejects it with the message "Valid year required". -/
theorem claim_C2 (cy y : Int) :
    yearError cy (intDecimalString y)
      = if 1900 ≤ y ∧ y ≤ cy + 1 then none else some "Valid year required" := by
  unfold yearError yearCheck
  rw [parseIntJS_intDecimalString]
  by_cases h : 1900 ≤ y ∧ y ≤ cy + 1
  · rw [if_pos h]
    have : (1900 ≤ y && y ≤ cy + 1) = true := by
      simp [h.1, h.2]
    simp [this]
  · rw [if_neg h]
    have : (1900 ≤ y && y ≤ cy + 1) = false := by
      rw [Bool.and_eq_false_iff]
      by_cases h1 : 1900 ≤ y
      · right; simp; omega
      · left; simp [h1]
    simp [this]

/-- C4: a successful AI extraction writes exactly make, model, year (as its
decimal string), color, bodyType, fuelType, price, mileage, transmission and
description into the draft; status, featured and seats are unchanged;
confidence affects neither the draft nor validation; the active tab becomes
"manual". -/
theorem claim_C4 (s : ComponentState) (cd : CarDetails) :
    ((processImageSuccess s cd).draft.make = cd.make
      ∧ (processImageSuccess s cd).draft.model = cd.model
      ∧ (processImageSuccess s cd).draft.year = intDecimalString cd.year
      ∧ (processImageSuccess s cd).draft.color = cd.color
      ∧ (processImageSuccess s cd).draft.bodyType = cd.bodyType
      ∧ (processImageSuccess s cd).draft.fuelType = cd.fuelType
      ∧ (processImageSuccess s cd).draft.price = cd.price
      ∧ (processImageSuccess s cd).draft.mileage = cd.mileage
      ∧ (processImageSuccess s cd).draft.transmission = cd.transmission
      ∧ (processImageSuccess s cd).draft.description = cd.description)
    ∧ ((processImageSuccess s cd).draft.status = s.draft.status
      ∧ (processImageSuccess s cd).draft.featured = s.draft.featured
      ∧ (processImageSuccess s cd).draft.seats = s.draft.seats)
    ∧ (processImageSuccess s cd).activeTab = "manual"
    ∧ (∀ c : ℚ, (processImageSuccess s { cd with confidence := c }).draft
        = (processImageSuccess s cd).draft)
    ∧ (∀ c : ℚ, ∀ cy : Int,
        fieldErrors cy (processImageSuccess s { cd with confidence := c }).draft
          = fieldErrors cy (processImageSuccess s cd).draft) := by
  refine ⟨⟨rfl, rfl, rfl, rfl, rfl, rfl, rfl, rfl, rfl, rfl⟩, ⟨rfl, rfl, rfl⟩,
    rfl, fun c => rfl, fun c cy => rfl⟩

/-- C6: for a valid index, `removeImage` removes exactly the element at that
index (the earlier elements stay, the later ones shift down by one), and when
the list held exactly one element before the removal the "at least one image"
error is re-armed. -/
theorem claim_C6 (s : ComponentState) (i : Nat)
    (h : i < s.uploadedImages.length) :
    (removeImage s i).uploadedImages
        = s.uploadedImages.take i ++ s.uploadedImages.drop (i + 1)
    ∧ (s.uploadedImages.length = 1 →
        (removeImage s i).imageError = "Please upload at least one image") := by
  unfold removeImage
  refine ⟨filterIdxNe_eq_take_drop _ _ h, fun h1 => ?_⟩
  simp [h1]

/-- Witness for C6 at a one-element image list and index 0. -/
theorem claim_C6_witness :
    (removeImage oneImageState 0).uploadedImages
        = oneImageState.uploadedImages.take 0
          ++ oneImageState.uploadedImages.drop 1
    ∧ (oneImageState.uploadedImages.length = 1 →
        (removeImage oneImageState 0).imageError
          = "Please upload at least one image") :=
  claim_C6 oneImageState 0 (by decide)

/-- C8: the AI-extraction error effect surfaces the error message (with the
fallback text on an empty message) and changes neither the draft, nor the
active tab, nor any other component state. -/
theorem claim_C8 (s : ComponentState) (message : String) :
    (processImageErrorEffect s message).1 = s
    ∧ (processImageErrorEffect s message).1.draft = s.draft
    ∧ (processImageErrorEffect s message).1.activeTab = s.activeTab
    ∧ (message ≠ "" → (processImageErrorEffect s message).2 = message)
    ∧ (message = "" →
        (processImageErrorEffect s message).2 = "Failed to process car image") := by
  unfold processImageErrorEffect
  refine ⟨rfl, rfl, rfl, fun h => ?_, fun h => ?_⟩
  · simp [h]
  · simp [h]

/-- Witness for C8 at a concrete state and message. -/
theorem claim_C8_witness :
    (processImageErrorEffect oneImageState "Gemini API error").1 = oneImageState
    ∧ (processImageErrorEffect oneImageState "Gemini API error").2
        = "Gemini API error" :=
  ⟨(claim_C8 oneImageState "Gemini API error").1,
    (claim_C8 oneImageState "Gemini API error").2.2.2.1 (by decide)⟩

/-- C9: removing the AI preview drops from the shared image list every entry
equal to the preview string — also a manually uploaded duplicate — leaving no
occurrence behind. -/
theorem claim_C9 (s : ComponentState) (preview : String) :
    (removeAiPreview s preview).uploadedImages
        = s.uploadedImages.filter (fun img => img ≠ preview)
    ∧ (∀ img ∈ (removeAiPreview s preview).uploadedImages, img ≠ preview) := by
  unfold removeAiPreview
  refine ⟨rfl, fun img himg => ?_⟩
  simp only [List.mem_filter, decide_eq_true_eq] at himg
  exact himg.2

/-- Witness for C9: with the preview payload present both as the AI image and
as a manual duplicate, both copies disappear. -/
theorem claim_C9_witness :
    (removeAiPreview dupImageState "data:p").uploadedImages = ["data:x"] := by
  rw [(claim_C9 dupImageState "data:p").1]
  decide

theorem countP_not_add_countP {α : Type} (p : α → Bool) (l : List α) :
    l.countP (fun a => !p a) + l.countP p = l.length := by
  induction l with
  | nil => rfl
  | cons x xs ih =>
    by_cases h : p x = true <;> simp [List.countP_cons, h] <;> omega

/-- A small in-limit file for witnesses. -/
def smallFile : JsFile := { name := "a.png", size := 1000, dataUrl := "data:a" }

/-- An oversize file (6,000,000 bytes > 5 MiB) for witnesses. -/
def bigFile : JsFile := { name := "b.png", size := 6000000, dataUrl := "data:b" }

/-- C3: dropping a batch appends exactly the conforming files' payloads after
the unchanged existing images, the conforming count is N − k, exactly k
discrete oversize warnings are emitted (one per rejected file), the counts
and the appended multiset are order-independent, and an all-oversize batch
appends nothing and emits no success notification. -/
theorem claim_C3 (s : ComponentState) (files : List JsFile) :
    (onMultiImagesDrop s files).state.uploadedImages
        = s.uploadedImages
          ++ (files.filter (fun f => !oversize f)).map (fun f => f.dataUrl)
    ∧ (files.filter (fun f => !oversize f)).length
        = files.length - files.countP oversize
    ∧ (onMultiImagesDrop s files).warningToasts
        = (files.filter oversize).map
            (fun f => f.name ++ " exceeds 5MB limit and will be skipped")
    ∧ (onMultiImagesDrop s files).warningToasts.length = files.countP oversize
    ∧ (files.countP oversize = files.length →
        (onMultiImagesDrop s files).state = s
        ∧ (onMultiImagesDrop s files).successToast = none)
    ∧ (∀ files' : List JsFile, files'.Perm files →
        (onMultiImagesDrop s files').warningToasts.length
          = (onMultiImagesDrop s files).warningToasts.length
        ∧ ((onMultiImagesDrop s files').state.uploadedImages.drop
              s.uploadedImages.length).Perm
            ((onMultiImagesDrop s files).state.uploadedImages.drop
              s.uploadedImages.length)) := by
  have hwarn : ∀ t : List JsFile, (onMultiImagesDrop s t).warningToasts
      = (t.filter oversize).map
          (fun f => f.name ++ " exceeds 5MB limit and will be skipped") := by
    intro t
    simp only [onMultiImagesDrop]
    split_ifs <;> rfl
  have happend : ∀ t : List JsFile, (onMultiImagesDrop s t).state.uploadedImages
      = s.uploadedImages
        ++ (t.filter (fun f => !oversize f)).map (fun f => f.dataUrl) := by
    intro t
    simp only [onMultiImagesDrop]
    split_ifs with h
    · have hnil : t.filter (fun f => !oversize f) = [] := by
        simpa [List.isEmpty_iff] using h
      simp [hnil]
    · rfl
  refine ⟨happend files, ?_, hwarn files, ?_, ?_, ?_⟩
  · rw [← List.countP_eq_length_filter]
    have := countP_not_add_countP oversize files
    omega
  · rw [hwarn files, List.length_map, ← List.countP_eq_length_filter]
  · intro hk
    have hall := List.countP_eq_length.mp hk
    have hnil : files.filter (fun f => !oversize f) = [] :=
      List.filter_eq_nil_iff.mpr (fun a ha => by simp [hall a ha])
    have hbranch : (onMultiImagesDrop s files).state = s
        ∧ (onMultiImagesDrop s files).successToast = none := by
      simp only [onMultiImagesDrop]
      rw [if_pos (by simp [hnil])]
      exact ⟨rfl, rfl⟩
    exact hbranch
  · intro files' hperm
    refine ⟨?_, ?_⟩
    · rw [hwarn files', hwarn files]
      exact ((hperm.filter oversize).map _).length_eq
    · rw [happend files', happend files, List.drop_left, List.drop_left]
      exact (hperm.filter _).map _

/-- Witness for C3: a two-file batch (one oversize) dropped in either order
gives the same warning count and the same appended payloads up to order. -/
theorem claim_C3_witness :
    (onMultiImagesDrop emptyImageState [bigFile, smallFile]).warningToasts.length
      = (onMultiImagesDrop emptyImageState
          [smallFile, bigFile]).warningToasts.length
    ∧ ((onMultiImagesDrop emptyImageState
          [bigFile, smallFile]).state.uploadedImages.drop
            emptyImageState.uploadedImages.length).Perm
        ((onMultiImagesDrop emptyImageState
          [smallFile, bigFile]).state.uploadedImages.drop
            emptyImageState.uploadedImages.length) :=
  (claim_C3 emptyImageState [smallFile, bigFile]).2.2.2.2.2
    [bigFile, smallFile] (List.Perm.swap smallFile bigFile [])

/-- C5: when the external create call fails, exactly one error notification
is emitted, no redirect happens, and the whole component state (draft and
image list included) is unchanged; when it succeeds, the admin is redirected
to the car listing view.  The `useFetch` failure reporting is modelled from
the spec, since the hook is outside the repository snapshot. -/
theorem claim_C5 (s : ComponentState) (data : CarDraft) (msg : String)
    (h : s.uploadedImages ≠ []) :
    (submitFlow s data (AddCarOutcome.err msg)).1 = s
    ∧ (submitFlow s data (AddCarOutcome.err msg)).2.1 = [msg]
    ∧ (submitFlow s data (AddCarOutcome.err msg)).2.2.1 = []
    ∧ (submitFlow s data (AddCarOutcome.err msg)).2.2.2 = none
    ∧ (submitFlow s data AddCarOutcome.ok).2.2.2 = some "/admin/cars" := by
  have hlen : ¬s.uploadedImages.length = 0 := by
    simpa [List.length_eq_zero] using h
  unfold submitFlow onSubmit
  rw [if_neg hlen]
  exact ⟨rfl, rfl, rfl, rfl, rfl⟩

/-- Witness for C5 at a concrete one-image state. -/
theorem claim_C5_witness :
    (submitFlow oneImageState sampleDraft (AddCarOutcome.err "DB down")).1
        = oneImageState
    ∧ (submitFlow oneImageState sampleDraft
        (AddCarOutcome.err "DB down")).2.1 = ["DB down"]
    ∧ (submitFlow oneImageState sampleDraft
        (AddCarOutcome.err "DB down")).2.2.1 = []
    ∧ (submitFlow oneImageState sampleDraft
        (AddCarOutcome.err "DB down")).2.2.2 = none
    ∧ (submitFlow oneImageState sampleDraft AddCarOutcome.ok).2.2.2
        = some "/admin/cars" :=
  claim_C5 oneImageState sampleDraft "DB down" (by decide)

/-- C10: because the year refinement parses with `parseInt`, the non-numeric
string "2005abc" is accepted whenever the current year is at least 2004, even
though it is the decimal form of no integer. -/
theorem claim_C10 (cy : Int) (hcy : 2004 ≤ cy) :
    yearCheck cy "2005abc" = true
    ∧ ∀ y : Int, intDecimalString y ≠ "2005abc" := by
  constructor
  · have hp : parseIntJS "2005abc" = some 2005 := by decide
    unfold yearCheck
    rw [hp]
    simp only [Bool.and_eq_true, decide_eq_true_eq]
    omega
  · intro y heq
    unfold intDecimalString at heq
    by_cases hy : y < 0
    · rw [if_pos hy] at heq
      have hdata : '-' :: digitChars y.natAbs = "2005abc".data :=
        congrArg String.data heq
      have hhead : ('-' :: digitChars y.natAbs).headD ' '
          = ("2005abc".data).headD ' ' := by rw [hdata]
      rw [List.headD_cons] at hhead
      exact absurd hhead (by decide)
    · rw [if_neg hy] at heq
      unfold natDecimalString at heq
      by_cases hn : y.toNat = 0
      · rw [if_pos hn] at heq
        exact absurd heq (by decide)
      · rw [if_neg hn] at heq
        have hdata : digitChars y.toNat = "2005abc".data :=
          congrArg String.data heq
        have ha : 'a' ∈ digitChars y.toNat := by rw [hdata]; decide
        obtain ⟨d, hd, had⟩ := mem_digitChars ha
        have hdig : ('a').isDigit = true := by
          rw [had]; exact digitChar_isDigit hd
        exact absurd hdig (by decide)

/-- Witness for C10 at current year 2025. -/
theorem claim_C10_witness :
    (2004 : Int) ≤ 2025
    ∧ (yearCheck 2025 "2005abc" = true
      ∧ ∀ y : Int, intDecimalString y ≠ "2005abc") :=
  ⟨by norm_num, claim_C10 2025 (by norm_num)⟩

/-- C7: when exactly one required field is empty and every other check
passes, validation produces exactly that field's error and no other; and the
optional seats field never produces an error for any draft. -/
theorem claim_C7 :
    (∀ (cy : Int) (d : CarDraft) (f : ReqField),
      getField f d = "" →
      (∀ g : ReqField, g ≠ f → getField g d ≠ "") →
      yearCheck cy d.year = true →
      10 ≤ d.description.length →
      d.status ∈ carStatuses →
      fieldErrors cy d = [(reqName f, reqMsg f)])
    ∧ (∀ (cy : Int) (d : CarDraft), ∀ e ∈ fieldErrors cy d, e.1 ≠ "seats") := by
  refine ⟨?_, fun cy d => seats_never_in_fieldErrors cy d⟩
  intro cy d f hempty hothers hyear hdesc hstatus
  cases f with
  | make =>
    have hv : d.make = "" := hempty
    unfold fieldErrors
    rw [hv, requiredError_empty,
      requiredError_nonempty _ _
        (show d.model ≠ "" from hothers ReqField.model (by decide)),
      requiredError_nonempty _ _
        (show d.price ≠ "" from hothers ReqField.price (by decide)),
      requiredError_nonempty _ _
        (show d.mileage ≠ "" from hothers ReqField.mileage (by decide)),
      requiredError_nonempty _ _
        (show d.color ≠ "" from hothers ReqField.color (by decide)),
      requiredError_nonempty _ _
        (show d.fuelType ≠ "" from hothers ReqField.fuelType (by decide)),
      requiredError_nonempty _ _
        (show d.transmission ≠ "" from hothers ReqField.transmission (by decide)),
      requiredError_nonempty _ _
        (show d.bodyType ≠ "" from hothers ReqField.bodyType (by decide)),
      if_pos hyear, if_pos hdesc, if_pos hstatus]
    rfl
  | model =>
    have hv : d.model = "" := hempty
    unfold fieldErrors
    rw [hv, requiredError_empty,
      requiredError_nonempty _ _
        (show d.make ≠ "" from hothers ReqField.make (by decide)),
      requiredError_nonempty _ _
        (show d.price ≠ "" from hothers ReqField.price (by decide)),
      requiredError_nonempty _ _
        (show d.mileage ≠ "" from hothers ReqField.mileage (by decide)),
      requiredError_nonempty _ _
        (show d.color ≠ "" from hothers ReqField.color (by decide)),
      requiredError_nonempty _ _
        (show d.fuelType ≠ "" from hothers ReqField.fuelType (by decide)),
      requiredError_nonempty _ _
        (show d.transmission ≠ "" from hothers ReqField.transmission (by decide)),
      requiredError_nonempty _ _
        (show d.bodyType ≠ "" from hothers ReqField.bodyType (by decide)),
      if_pos hyear, if_pos hdesc, if_pos hstatus]
    rfl
  | price =>
    have hv : d.price = "" := hempty
    unfold fieldErrors
    rw [hv, requiredError_empty,
      requiredError_nonempty _ _
        (show d.make ≠ "" from hothers ReqField.make (by decide)),
      requiredError_nonempty _ _
        (show d.model ≠ "" from hothers ReqField.model (by decide)),
      requiredError_nonempty _ _
        (show d.mileage ≠ "" from hothers ReqField.mileage (by decide)),
      requiredError_nonempty _ _
        (show d.color ≠ "" from hothers ReqField.color (by decide)),
      requiredError_nonempty _ _
        (show d.fuelType ≠ "" from hothers ReqField.fuelType (by decide)),
      requiredError_nonempty _ _
        (show d.transmission ≠ "" from hothers ReqField.transmission (by decide)),
      requiredError_nonempty _ _
        (show d.bodyType ≠ "" from hothers ReqField.bodyType (by decide)),
      if_pos hyear, if_pos hdesc, if_pos hstatus]
    rfl
  | mileage =>
    have hv : d.mileage = "" := hempty
    unfold fieldErrors
    rw [hv, requiredError_empty,
      requiredError_nonempty _ _
        (show d.make ≠ "" from hothers ReqField.make (by decide)),
      requiredError_nonempty _ _
        (show d.model ≠ "" from hothers ReqField.model (by decide)),
      requiredError_nonempty _ _
        (show d.price ≠ "" from hothers ReqField.price (by decide)),
      requiredError_nonempty _ _
        (show d.color ≠ "" from hothers ReqField.color (by decide)),
      requiredError_nonempty _ _
        (show d.fuelType ≠ "" from hothers ReqField.fuelType (by decide)),
      requiredError_nonempty _ _
        (show d.transmission ≠ "" from hothers ReqField.transmission (by decide)),
      requiredError_nonempty _ _
        (show d.bodyType ≠ "" from hothers ReqField.bodyType (by decide)),
      if_pos hyear, if_pos hdesc, if_pos hstatus]
    rfl
  | color =>
    have hv : d.color = "" := hempty
    unfold fieldErrors
    rw [hv, requiredError_empty,
      requiredError_nonempty _ _
        (show d.make ≠ "" from hothers ReqField.make (by decide)),
      requiredError_nonempty _ _
        (show d.model ≠ "" from hothers ReqField.model (by decide)),
      requiredError_nonempty _ _
        (show d.price ≠ "" from hothers ReqField.price (by decide)),
      requiredError_nonempty _ _
        (show d.mileage ≠ "" from hothers ReqField.mileage (by decide)),
      requiredError_nonempty _ _
        (show d.fuelType ≠ "" from hothers ReqField.fuelType (by decide)),
      requiredError_nonempty _ _
        (show d.transmission ≠ "" from hothers ReqField.transmission (by decide)),
      requiredError_nonempty _ _
        (show d.bodyType ≠ "" from hothers ReqField.bodyType (by decide)),
      if_pos hyear, if_pos hdesc, if_pos hstatus]
    rfl
  | fuelType =>
    have hv : d.fuelType = "" := hempty
    unfold fieldErrors
    rw [hv, requiredError_empty,
      requiredError_nonempty _ _
        (show d.make ≠ "" from hothers ReqField.make (by decide)),
      requiredError_nonempty _ _
        (show d.model ≠ "" from hothers ReqField.model (by decide)),
      requiredError_nonempty _ _
        (show d.price ≠ "" from hothers ReqField.price (by decide)),
      requiredError_nonempty _ _
        (show d.mileage ≠ "" from hothers ReqField.mileage (by decide)),
      requiredError_nonempty _ _
        (show d.color ≠ "" from hothers ReqField.color (by decide)),
      requiredError_nonempty _ _
        (show d.transmission ≠ "" from hothers ReqField.transmission (by decide)),
      requiredError_nonempty _ _
        (show d.bodyType ≠ "" from hothers ReqField.bodyType (by decide)),
      if_pos hyear, if_pos hdesc, if_pos hstatus]
    rfl
  | transmission =>
    have hv : d.transmission = "" := hempty
    unfold fieldErrors
    rw [hv, requiredError_empty,
      requiredError_nonempty _ _
        (show d.make ≠ "" from hothers ReqField.make (by decide)),
      requiredError_nonempty _ _
        (show d.model ≠ "" from hothers ReqField.model (by decide)),
      requiredError_nonempty _ _
        (show d.price ≠ "" from hothers ReqField.price (by decide)),
      requiredError_nonempty _ _
        (show d.mileage ≠ "" from hothers ReqField.mileage (by decide)),
      requiredError_nonempty _ _
        (show d.color ≠ "" from hothers ReqField.color (by decide)),
      requiredError_nonempty _ _
        (show d.fuelType ≠ "" from hothers ReqField.fuelType (by decide)),
      requiredError_nonempty _ _
        (show d.bodyType ≠ "" from hothers ReqField.bodyType (by decide)),
      if_pos hyear, if_pos hdesc, if_pos hstatus]
    rfl
  | bodyType =>
    have hv : d.bodyType = "" := hempty
    unfold fieldErrors
    rw [hv, requiredError_empty,
      requiredError_nonempty _ _
        (show d.make ≠ "" from hothers ReqField.make (by decide)),
      requiredError_nonempty _ _
        (show d.model ≠ "" from hothers ReqField.model (by decide)),
      requiredError_nonempty _ _
        (show d.price ≠ "" from hothers ReqField.price (by decide)),
      requiredError_nonempty _ _
        (show d.mileage ≠ "" from hothers ReqField.mileage (by decide)),
      requiredError_nonempty _ _
        (show d.color ≠ "" from hothers ReqField.color (by decide)),
      requiredError_nonempty _ _
        (show d.fuelType ≠ "" from hothers ReqField.fuelType (by decide)),
      requiredError_nonempty _ _
        (show d.transmission ≠ "" from hothers ReqField.transmission (by decide)),
      if_pos hyear, if_pos hdesc, if_pos hstatus]
    rfl

/-- A draft identical to `sampleDraft` except that make is empty. -/
def draftMissingMake : CarDraft := { sampleDraft with make := "" }

/-- Witness for C7: with only make empty, at current year 2025 validation
reports exactly the make error. -/
theorem claim_C7_witness :
    fieldErrors 2025 draftMissingMake
      = [(reqName ReqField.make, reqMsg ReqField.make)] :=
  claim_C7.1 2025 draftMissingMake ReqField.make rfl (by decide) (by decide)
    (by decide) (by decide)

end VehiQl
